import Mathlib

/-!
Verification of the Insightball backend's entitlement/quota engine.

The definitions below are a shallow embedding of the Python source:
* `src/app/routes/matches.py` — `get_current_month_range`,
  `check_and_consume_quota`, `_get_solo_club_id`, `create_match`,
  `delete_match`;
* `src/app/routes/subscription.py` — the `stripe_webhook` event handlers;
* `src/app/models/user.py`, `src/app/models/match.py`,
  `src/app/models/club.py` — the entitlement-relevant columns.

Python `datetime` values are embedded as a calendar record compared
lexicographically (the ordering Python uses).  The ambient clock
(`datetime.utcnow()`) becomes an explicit `now` argument.  Database rows
become lists; an `HTTPException` becomes a denial constructor, and since the
request session is then discarded without commit, the pre-exception state is
returned unchanged on denial paths.
-/

namespace Insightball

/-- Embedding of Python `datetime.datetime` (proleptic calendar record;
Python compares these lexicographically field by field). -/
structure DateTime where
  year : Int
  month : Nat
  day : Nat
  hour : Nat
  minute : Nat
  second : Nat
  microsecond : Nat
deriving DecidableEq, Repr

/-- Python `a < b` on datetimes: lexicographic comparison. -/
def DateTime.ltb (a b : DateTime) : Bool :=
  if a.year ≠ b.year then decide (a.year < b.year)
  else if a.month ≠ b.month then decide (a.month < b.month)
  else if a.day ≠ b.day then decide (a.day < b.day)
  else if a.hour ≠ b.hour then decide (a.hour < b.hour)
  else if a.minute ≠ b.minute then decide (a.minute < b.minute)
  else if a.second ≠ b.second then decide (a.second < b.second)
  else decide (a.microsecond < b.microsecond)

/-- Python `a <= b` on datetimes (total order: `a <= b` iff not `b < a`). -/
def DateTime.leb (a b : DateTime) : Bool :=
  !(DateTime.ltb b a)

/-- Days per month, with the Gregorian leap rule (Python `calendar`). -/
def daysInMonth (y : Int) (m : Nat) : Nat :=
  if m = 2 then
    if y % 4 = 0 ∧ (y % 100 ≠ 0 ∨ y % 400 = 0) then 29 else 28
  else if m = 4 ∨ m = 6 ∨ m = 9 ∨ m = 11 then 30
  else 31

/-- Advance a datetime by one calendar day, rolling over months/years. -/
def DateTime.nextDay (d : DateTime) : DateTime :=
  if d.day < daysInMonth d.year d.month then { d with day := d.day + 1 }
  else if d.month < 12 then { d with day := 1, month := d.month + 1 }
  else { d with day := 1, month := 1, year := d.year + 1 }

/-- Python `d + timedelta(days=n)`. -/
def DateTime.addDays : DateTime → Nat → DateTime
  | d, 0 => d
  | d, n + 1 => DateTime.addDays d.nextDay n

/-- `PlanType` from `src/app/models/user.py` (values "COACH", "CLUB"). -/
inductive PlanType where
  | COACH
  | CLUB
deriving DecidableEq, Repr

/-- `MatchStatus` from `src/app/models/match.py`. -/
inductive MatchStatus where
  | PENDING
  | PROCESSING
  | COMPLETED
  | ERROR
deriving DecidableEq, Repr

/-- The entitlement-relevant columns of `User` (`src/app/models/user.py`).
Columns never read or written by the quota/billing code (email, password
hash, profile fields, soft-delete fields, timestamps) are omitted. -/
structure User where
  id : String
  name : String
  plan : Option PlanType
  is_superadmin : Bool
  stripe_customer_id : Option String
  stripe_subscription_id : Option String
  club_id : Option String
  is_active : Bool
  trial_match_used : Bool
  trial_ends_at : Option DateTime
  current_period_start : Option DateTime
  current_period_end : Option DateTime
deriving DecidableEq, Repr

/-- The quota-relevant columns of `Match` (`src/app/models/match.py`):
the quota counter reads `club_id` and `created_at`; `delete_match` also
guards on `status`; `id` is the primary key. -/
structure Match where
  id : String
  club_id : String
  created_at : DateTime
  status : MatchStatus
deriving DecidableEq, Repr

/-- The columns of `Club` (`src/app/models/club.py`) that the quota code
touches. -/
structure Club where
  id : String
  name : String
  quota_matches : Nat
deriving DecidableEq, Repr

/-- The database state seen by the quota engine: the `matches` and `clubs`
tables. -/
structure DB where
  matchesTable : List Match
  clubs : List Club
deriving DecidableEq, Repr

/-- `PLAN_QUOTAS` from `src/app/routes/matches.py` lines 16-19. -/
def PLAN_QUOTAS : PlanType → Nat
  | PlanType.COACH => 4
  | PlanType.CLUB => 12

/-- `TRIAL_MATCH_LIMIT` (`matches.py` line 21). -/
def TRIAL_MATCH_LIMIT : Nat := 1

/-- `TRIAL_DAY_LIMIT` (`matches.py` line 22). -/
def TRIAL_DAY_LIMIT : Nat := 7

/-- `get_current_month_range` (`matches.py` lines 29-38), with the ambient
`datetime.utcnow()` passed explicitly as `now`. -/
def get_current_month_range (now : DateTime) : DateTime × DateTime :=
  let start : DateTime :=
    { now with day := 1, hour := 0, minute := 0, second := 0, microsecond := 0 }
  let e : DateTime :=
    if now.month = 12 then { start with year := now.year + 1, month := 1 }
    else { start with month := now.month + 1 }
  (start, e)

/-- `_get_solo_club_id` (`matches.py` lines 143-166): returns the resolved
club id together with the updated user (the function writes `user.club_id`)
and the updated database (it may insert a solo `Club` row with
`id == user.id`). -/
def get_solo_club_id (user : User) (db : DB) : String × User × DB :=
  match user.club_id with
  | some cid => (cid, user, db)
  | none =>
    match db.clubs.find? (fun c => c.id == user.id) with
    | some c => (c.id, { user with club_id := some c.id }, db)
    | none =>
      let c : Club :=
        { id := user.id, name := "Coach — " ++ user.name,
          quota_matches := PLAN_QUOTAS PlanType.COACH }
      (c.id, { user with club_id := some c.id },
        { db with clubs := db.clubs ++ [c] })

/-- The usage counter: `db.query(Match).filter(Match.club_id == club_id,
Match.created_at >= start, Match.created_at < end).count()`
(`matches.py` lines 94-98 and 122-126). -/
def countMatchesInWindow (db : DB) (cid : String) (s e : DateTime) : Nat :=
  (db.matchesTable.filter fun m =>
    m.club_id == cid && DateTime.leb s m.created_at
      && DateTime.ltb m.created_at e).length

/-- The `detail` payloads of the `HTTPException`s raised by
`check_and_consume_quota`. -/
inductive QuotaError where
  | NO_ACTIVE_PLAN
  | TRIAL_EXHAUSTED
  | TRIAL_EXPIRED
  | QUOTA_EXCEEDED (plan : String) (quota : Nat) (used : Nat) (resets_at : DateTime)
deriving DecidableEq, Repr

/-- The HTTP status code each denial is raised with. -/
def QuotaError.statusCode : QuotaError → Nat
  | QuotaError.NO_ACTIVE_PLAN => 403
  | QuotaError.TRIAL_EXHAUSTED => 402
  | QuotaError.TRIAL_EXPIRED => 402
  | QuotaError.QUOTA_EXCEEDED _ _ _ _ => 429

/-- The stable token carried in the `detail` (the `code` key for
`QUOTA_EXCEEDED`, the whole detail string otherwise). -/
def QuotaError.token : QuotaError → String
  | QuotaError.NO_ACTIVE_PLAN => "NO_ACTIVE_PLAN"
  | QuotaError.TRIAL_EXHAUSTED => "TRIAL_EXHAUSTED"
  | QuotaError.TRIAL_EXPIRED => "TRIAL_EXPIRED"
  | QuotaError.QUOTA_EXCEEDED _ _ _ _ => "QUOTA_EXCEEDED"

/-- Outcome of `check_and_consume_quota`: a plain return (`allowed`) or a
raised `HTTPException` (`denied`). -/
inductive QuotaCheck where
  | allowed
  | denied (e : QuotaError)
deriving DecidableEq, Repr

/-- The `"CLUB"` / `"COACH"` string used in the `QUOTA_EXCEEDED` detail. -/
def planLabel : PlanType → String
  | PlanType.COACH => "COACH"
  | PlanType.CLUB => "CLUB"

/-- `check_and_consume_quota` (`matches.py` lines 41-140).  Returns the
outcome together with the user and database state as left by the call.
Branch structure, in source order:
1. superadmin → allowed, nothing touched (lines 48-49);
2. no plan → 403 `NO_ACTIVE_PLAN` (lines 52-56);
3. no `stripe_subscription_id` → trial branch (lines 63-87):
   initialize `trial_ends_at := now + 7 days` when unset, then deny
   `TRIAL_EXHAUSTED` if the flag is set, deny `TRIAL_EXPIRED` when
   `now > trial_ends_at`, else consume the flag;
4. plan CLUB → calendar-month count against quota 12 (lines 90-111);
5. plan COACH → calendar-month count against quota 4 (lines 114-140). -/
def check_and_consume_quota (user : User) (db : DB) (now : DateTime) :
    QuotaCheck × User × DB :=
  if user.is_superadmin then (QuotaCheck.allowed, user, db)
  else
    match user.plan with
    | none => (QuotaCheck.denied QuotaError.NO_ACTIVE_PLAN, user, db)
    | some plan =>
      match user.stripe_subscription_id with
      | none =>
        let te : DateTime :=
          match user.trial_ends_at with
          | none => now.addDays TRIAL_DAY_LIMIT
          | some t => t
        let user1 : User := { user with trial_ends_at := some te }
        if user1.trial_match_used then
          (QuotaCheck.denied QuotaError.TRIAL_EXHAUSTED, user1, db)
        else if DateTime.ltb te now then
          (QuotaCheck.denied QuotaError.TRIAL_EXPIRED, user1, db)
        else
          (QuotaCheck.allowed, { user1 with trial_match_used := true }, db)
      | some _ =>
        match plan with
        | PlanType.CLUB =>
          let quota := PLAN_QUOTAS PlanType.CLUB
          let r := get_current_month_range now
          let g := get_solo_club_id user db
          let cnt := countMatchesInWindow g.2.2 g.1 r.1 r.2
          if quota ≤ cnt then
            (QuotaCheck.denied (QuotaError.QUOTA_EXCEEDED "CLUB" quota cnt r.2),
              g.2.1, g.2.2)
          else (QuotaCheck.allowed, g.2.1, g.2.2)
        | PlanType.COACH =>
          let quota := PLAN_QUOTAS PlanType.COACH
          let r := get_current_month_range now
          let g := get_solo_club_id user db
          let cnt := countMatchesInWindow g.2.2 g.1 r.1 r.2
          if quota ≤ cnt then
            (QuotaCheck.denied (QuotaError.QUOTA_EXCEEDED "COACH" quota cnt r.2),
              g.2.1, g.2.2)
          else (QuotaCheck.allowed, g.2.1, g.2.2)

/-- The `create_match` endpoint (`matches.py` lines 173-214), reduced to its
quota-relevant effect: run `check_and_consume_quota`, resolve the club id,
insert the match row (its `created_at` column defaults to `datetime.utcnow()`
and its status is `PENDING`), then commit.  When the quota check raises, the
request aborts and the session is discarded without commit, so the stored
state is unchanged. -/
def create_match (user : User) (db : DB) (now : DateTime) (mid : String) :
    QuotaCheck × User × DB :=
  match check_and_consume_quota user db now with
  | (QuotaCheck.denied e, _, _) => (QuotaCheck.denied e, user, db)
  | (QuotaCheck.allowed, u1, db1) =>
    let g := get_solo_club_id u1 db1
    (QuotaCheck.allowed, g.2.1,
      { g.2.2 with matchesTable := g.2.2.matchesTable ++
          [{ id := mid, club_id := g.1, created_at := now,
             status := MatchStatus.PENDING }] })

/-- Outcome of the `delete_match` endpoint. -/
inductive DeleteResult where
  | deleted
  | notFound
  | conflict
deriving DecidableEq, Repr

/-- The `delete_match` endpoint (`matches.py` lines 306-330): resolve the
club id, look the match up by id within that club, 404 when absent, 409 when
it is `PROCESSING`, otherwise delete the row and commit.  On the raising
paths the session is discarded without commit, so the stored state is
unchanged. -/
def delete_match (user : User) (db : DB) (mid : String) :
    DeleteResult × User × DB :=
  let g := get_solo_club_id user db
  match g.2.2.matchesTable.find? (fun m => m.id == mid && m.club_id == g.1) with
  | none => (DeleteResult.notFound, user, db)
  | some m =>
    if m.status = MatchStatus.PROCESSING then (DeleteResult.conflict, user, db)
    else
      (DeleteResult.deleted, g.2.1,
        { g.2.2 with matchesTable :=
            g.2.2.matchesTable.filter (fun x => !(x.id == mid && x.club_id == g.1)) })

/-- The Stripe webhook events consumed by `stripe_webhook`
(`subscription.py` lines 515-619), normalized to the payload subset the
handler reads.  For `checkoutSessionCompleted`, `subTrialEnd` is the
`trial_end` of the subscription the handler retrieves from Stripe for the
session's subscription id (`none` when the subscription carries no trial end
or the retrieval fails, which the handler swallows). -/
inductive StripeEvent where
  | checkoutSessionCompleted (user_id : String) (planMeta : String)
      (subscription : Option String) (customer : Option String)
      (subTrialEnd : Option DateTime)
  | trialWillEnd (customer : String)
  | invoicePaymentSucceeded (customer : String) (billingReason : String)
  | invoicePaymentFailed (customer : String)
  | subscriptionDeleted (customer : String)
  | subscriptionUpdated (customer : String) (subStatus : String) (planMeta : String)
deriving DecidableEq, Repr

/-- `PlanType(s)` in Python: match by enum value, `ValueError` otherwise. -/
def planFromString (s : String) : Option PlanType :=
  if s == "COACH" then some PlanType.COACH
  else if s == "CLUB" then some PlanType.CLUB
  else none

/-- The per-user state change of the `checkout.session.completed` handler
(`subscription.py` lines 529-554): set `plan` (falling back to COACH on a
parse failure), `stripe_subscription_id`, `stripe_customer_id` (keeping the
existing one when the session carries none), mark active, and — whenever the
session has a subscription id whose retrieved subscription carries a
`trial_end` — write `trial_ends_at`, unconditionally. -/
def applyCheckoutCompleted (planMeta : String) (sub : Option String)
    (cust : Option String) (subTrialEnd : Option DateTime) (u : User) : User :=
  let p : PlanType :=
    match planFromString planMeta with
    | some pl => pl
    | none => PlanType.COACH
  let u1 : User :=
    { u with plan := some p,
             stripe_subscription_id := sub,
             stripe_customer_id :=
               match cust with
               | some c => some c
               | none => u.stripe_customer_id,
             is_active := true }
  match sub with
  | none => u1
  | some _ =>
    match subTrialEnd with
    | some t => { u1 with trial_ends_at := some t }
    | none => u1

/-- `db.query(User).filter(...).first()` followed by a field update: apply
`f` to the first user satisfying `p`, leave everyone else alone. -/
def updateFirst (p : User → Bool) (f : User → User) : List User → List User
  | [] => []
  | u :: us => if p u then f u :: us else u :: updateFirst p f us

/-- The `stripe_webhook` handler (`subscription.py` lines 515-619) applied
to the users table.  `trial_will_end` only sends an email; the
`invoice.payment_succeeded` handler acts only for billing reasons
`subscription_cycle` / `subscription_create`; `customer.subscription.deleted`
clears `stripe_subscription_id` and deactivates but leaves the trial fields
alone; `customer.subscription.updated` re-derives `is_active` from the
status and re-asserts `plan` from the metadata when it parses. -/
def applyStripeEvent (users : List User) (ev : StripeEvent) : List User :=
  match ev with
  | StripeEvent.checkoutSessionCompleted uid planMeta sub cust subTrialEnd =>
    updateFirst (fun u => u.id == uid)
      (applyCheckoutCompleted planMeta sub cust subTrialEnd) users
  | StripeEvent.trialWillEnd cust =>
    updateFirst (fun u => u.stripe_customer_id == some cust) (fun u => u) users
  | StripeEvent.invoicePaymentSucceeded cust reason =>
    if reason == "subscription_cycle" || reason == "subscription_create" then
      updateFirst (fun u => u.stripe_customer_id == some cust)
        (fun u => { u with is_active := true }) users
    else users
  | StripeEvent.invoicePaymentFailed cust =>
    updateFirst (fun u => u.stripe_customer_id == some cust)
      (fun u => { u with is_active := false }) users
  | StripeEvent.subscriptionDeleted cust =>
    updateFirst (fun u => u.stripe_customer_id == some cust)
      (fun u => { u with is_active := false, stripe_subscription_id := none }) users
  | StripeEvent.subscriptionUpdated cust st planMeta =>
    updateFirst (fun u => u.stripe_customer_id == some cust)
      (fun u =>
        let u1 : User := { u with is_active := (st == "active" || st == "trialing") }
        if planMeta == "COACH" || planMeta == "CLUB" then
          match planFromString planMeta with
          | some pl => { u1 with plan := some pl }
          | none => u1
        else u1) users

/-- A billing event applied to a single subject (the webhook lookup finds at
most one user; on a miss the event is dropped without effect). -/
def applyEventToUser (u : User) (ev : StripeEvent) : User :=
  (applyStripeEvent [u] ev).headD u

/-- The operations that can touch a subject's billing state or tenant rows:
a quota check (inside its gated caller), a match creation, a match deletion,
or a webhook event application. -/
inductive Op where
  | quotaCheck (now : DateTime)
  | createMatchOp (now : DateTime) (mid : String)
  | deleteMatchOp (mid : String)
  | billingEvent (ev : StripeEvent)
deriving Repr

/-- A subject's durable state: its user row and the tenant tables. -/
structure Sys where
  user : User
  db : DB
deriving DecidableEq, Repr

/-- One operation applied to the durable state.  A quota check that raises
leaves the store unchanged (the session commits only on success, via its
caller `create_match`). -/
def applyOp (s : Sys) : Op → Sys
  | Op.quotaCheck now =>
    match check_and_consume_quota s.user s.db now with
    | (QuotaCheck.allowed, u, db) => { user := u, db := db }
    | (QuotaCheck.denied _, _, _) => s
  | Op.createMatchOp now mid =>
    let r := create_match s.user s.db now mid
    { user := r.2.1, db := r.2.2 }
  | Op.deleteMatchOp mid =>
    let r := delete_match s.user s.db mid
    { user := r.2.1, db := r.2.2 }
  | Op.billingEvent ev => { s with user := applyEventToUser s.user ev }

/-- A sequence of operations applied in order. -/
def applyOps (s : Sys) (ops : List Op) : Sys :=
  ops.foldl applyOp s

/-!
Concurrency model of the trial-flag consumption (`matches.py` lines 72-86).
Each request loads its user row (reading `trial_match_used`) and later, in a
separate store round trip, either raises `TRIAL_EXHAUSTED` (when the value
it read was true) or writes `true` and allows.  The code is a plain
read-then-write: there is no conditional `UPDATE ... WHERE trial_match_used
= false`, no row lock, and no re-read before the write.  The model below
splits a call at exactly those two accesses to the shared column; the
decide-and-write step is even taken as a single atomic access, which is
generous to the code — the race exhibited comes from the stale read alone.
-/

/-- One in-flight request executing the trial consumption: `readVal` is the
`trial_match_used` value it has loaded (if it has), `outcome` the decision
it reached (`some true` = Allow, `some false` = Deny `TRIAL_EXHAUSTED`). -/
structure TrialCall where
  readVal : Option Bool
  outcome : Option Bool
deriving DecidableEq, Repr

/-- A request that has not yet touched the store. -/
def freshCall : TrialCall := { readVal := none, outcome := none }

/-- One scheduler step granted to a call: its next access to the shared
`trial_match_used` flag.  First access reads the flag (loading the user
row); second access denies if the read value was true, else writes `true`
and allows; a finished call does nothing. -/
def stepCall (flag : Bool) (c : TrialCall) : Bool × TrialCall :=
  match c.readVal, c.outcome with
  | none, _ => (flag, { c with readVal := some flag })
  | some r, none =>
    if r then (flag, { c with outcome := some false })
    else (true, { c with outcome := some true })
  | some _, some _ => (flag, c)

/-- Run an interleaving: each schedule entry names the call that performs
its next access to the shared flag. -/
def runSchedule : Bool × List TrialCall → List Nat → Bool × List TrialCall
  | s, [] => s
  | (flag, calls), i :: rest =>
    match calls[i]? with
    | none => runSchedule (flag, calls) rest
    | some c =>
      let fc := stepCall flag c
      runSchedule (fc.1, calls.set i fc.2) rest

/-- A call that runs to completion with no interleaving: returns the final
flag and whether the call was allowed. -/
def runCallAtomic (flag : Bool) : Bool × Bool :=
  let s1 := stepCall flag freshCall
  let s2 := stepCall s1.1 s1.2
  (s2.1, s2.2.outcome.getD false)

/-- `n` calls, each running to completion before the next starts: returns
the final flag and the list of per-call Allow results in order. -/
def runSequential (flag : Bool) : Nat → Bool × List Bool
  | 0 => (flag, [])
  | n + 1 =>
    let r := runCallAtomic flag
    let rest := runSequential r.1 n
    (rest.1, r.2 :: rest.2)

/-!  Concrete fixtures used by the counterexamples and witnesses. -/

/-- A datetime at midnight, UTC. -/
def dt (y : Int) (mo d : Nat) : DateTime :=
  { year := y, month := mo, day := d, hour := 0, minute := 0, second := 0,
    microsecond := 0 }

/-- A club row. -/
def club1 : Club := { id := "club-1", name := "FC Test", quota_matches := 4 }

/-- A COACH-plan user attached to `club1`, no subscription, fresh trial
state. -/
def baseUser : User :=
  { id := "user-1", name := "Ada",
    plan := some PlanType.COACH,
    is_superadmin := false,
    stripe_customer_id := some "cus_1",
    stripe_subscription_id := none,
    club_id := some "club-1",
    is_active := true,
    trial_match_used := false,
    trial_ends_at := none,
    current_period_start := none,
    current_period_end := none }

/-- A pending match row of `club1`. -/
def matchAt (mid : String) (d : DateTime) : Match :=
  { id := mid, club_id := "club-1", created_at := d,
    status := MatchStatus.PENDING }

/-- An empty store. -/
def dbEmpty : DB := { matchesTable := [], clubs := [] }

/-- Subject with a subscription, a future trial end and the trial flag
already consumed. -/
def uC1 : User :=
  { baseUser with
    stripe_subscription_id := some "sub_1",
    trial_ends_at := some (dt 2026 1 20), trial_match_used := true }

/-- Store with `club1` and no matches. -/
def dbC1 : DB := { matchesTable := [], clubs := [club1] }

/-- Subscribed subject with both billing-period fields populated. -/
def uC2 : User :=
  { baseUser with
    stripe_subscription_id := some "sub_1",
    current_period_start := some (dt 2026 1 20),
    current_period_end := some (dt 2026 2 20) }

/-- Four matches created 2026-01-05: inside the calendar month of
2026-01-25, outside `[2026-01-20, 2026-02-20)`. -/
def dbC2 : DB :=
  { matchesTable := [matchAt "m1" (dt 2026 1 5), matchAt "m2" (dt 2026 1 5),
      matchAt "m3" (dt 2026 1 5), matchAt "m4" (dt 2026 1 5)],
    clubs := [club1] }

/-- Subscribed subject whose trial ended 2026-01-10. -/
def uC3 : User :=
  { baseUser with
    stripe_subscription_id := some "sub_1",
    trial_ends_at := some (dt 2026 1 10) }

/-- One match created during the trial window (2026-01-05) and three after
it, all within January 2026. -/
def dbC3 : DB :=
  { matchesTable := [matchAt "m1" (dt 2026 1 5), matchAt "m2" (dt 2026 1 12),
      matchAt "m3" (dt 2026 1 13), matchAt "m4" (dt 2026 1 14)],
    clubs := [club1] }

/-- Subject whose trial match is already consumed. -/
def uC5 : User := { baseUser with trial_match_used := true }

/-- Store with `club1` and no matches. -/
def dbC5 : DB := { matchesTable := [], clubs := [club1] }

/-- A sample operation sequence: a cancellation event, a quota check, a
deletion and a match creation. -/
def opsC5 : List Op :=
  [Op.billingEvent (StripeEvent.subscriptionDeleted "cus_1"),
   Op.quotaCheck (dt 2026 1 12),
   Op.deleteMatchOp "m1",
   Op.createMatchOp (dt 2026 1 13) "m9"]

/-- Subject with an expired trial already granted and consumed. -/
def uC6 : User :=
  { baseUser with
    trial_ends_at := some (dt 2026 1 8),
    trial_match_used := true }

/-- A later checkout event whose subscription carries a fresh trial end. -/
def evC6 : StripeEvent :=
  StripeEvent.checkoutSessionCompleted "user-1" "COACH" (some "sub_2")
    (some "cus_1") (some (dt 2026 3 1))

/-- Unsubscribed subject whose trial window ended 2026-01-10. -/
def uC7 : User := { baseUser with trial_ends_at := some (dt 2026 1 10) }

/-- Store with `club1` and no matches. -/
def dbC7 : DB := { matchesTable := [], clubs := [club1] }

/-- Subscribed subject not yet attached to any club. -/
def uC8paid : User :=
  { baseUser with
    stripe_subscription_id := some "sub_1", club_id := none }

/-- Unsubscribed subject whose trial window ends exactly at the evaluation
instant 2026-01-10. -/
def uC9 : User := { baseUser with trial_ends_at := some (dt 2026 1 10) }

/-- Store with `club1` and no matches. -/
def dbC9 : DB := { matchesTable := [], clubs := [club1] }

/-- Subscribed subject at the quota ceiling. -/
def uC10 : User :=
  { baseUser with stripe_subscription_id := some "sub_1" }

/-- Four matches inside January 2026 — exactly the COACH ceiling. -/
def dbC10 : DB :=
  { matchesTable := [matchAt "m1" (dt 2026 1 5), matchAt "m2" (dt 2026 1 6),
      matchAt "m3" (dt 2026 1 7), matchAt "m4" (dt 2026 1 8)],
    clubs := [club1] }

/-!
Derived views of the evaluator, used to state its branch behavior.  Each is
proved equal to the corresponding slice of `check_and_consume_quota` below;
none of them is used inside the embedded code itself.
-/

/-- The trial end the trial branch compares against: the stored
`trial_ends_at`, or the freshly initialized `now + 7 days`. -/
def effectiveTrialEnd (u : User) (now : DateTime) : DateTime :=
  match u.trial_ends_at with
  | none => now.addDays TRIAL_DAY_LIMIT
  | some t => t

/-- The decision of the trial branch as a function of the flag, the trial
end and the clock. -/
def trialDecision (flag : Bool) (te now : DateTime) : QuotaCheck :=
  if flag then QuotaCheck.denied QuotaError.TRIAL_EXHAUSTED
  else if DateTime.ltb te now then QuotaCheck.denied QuotaError.TRIAL_EXPIRED
  else QuotaCheck.allowed

/-- The decision of the paid branch as a function of the plan, the usage
count and the window end. -/
def paidDecision (p : PlanType) (cnt : Nat) (resets : DateTime) : QuotaCheck :=
  if PLAN_QUOTAS p ≤ cnt then
    QuotaCheck.denied
      (QuotaError.QUOTA_EXCEEDED (planLabel p) (PLAN_QUOTAS p) cnt resets)
  else QuotaCheck.allowed

/-- The usage count the paid branch computes: tenant records of the
resolved club inside the current calendar month. -/
def paidCount (u : User) (db : DB) (now : DateTime) : Nat :=
  countMatchesInWindow (get_solo_club_id u db).2.2 (get_solo_club_id u db).1
    (get_current_month_range now).1 (get_current_month_range now).2

/-!  Helper lemmas about the embedded code. -/

theorem DateTime.ltb_irrefl (d : DateTime) : DateTime.ltb d d = false := by
  simp [DateTime.ltb]

/-- `_get_solo_club_id` only ever writes the user's `club_id` (to the id it
returns). -/
theorem get_solo_club_id_user (u : User) (db : DB) :
    (get_solo_club_id u db).2.1
      = { u with club_id := some (get_solo_club_id u db).1 } := by
  obtain ⟨i, nm, pl, sa, cu, su, cl, act, fl, te, cps, cpe⟩ := u
  cases cl with
  | some cid => rfl
  | none =>
    cases hf : db.clubs.find? (fun c => c.id == i) with
    | some c => simp [get_solo_club_id, hf]
    | none => simp [get_solo_club_id, hf]

/-- `_get_solo_club_id` never touches the matches table and at most appends
one club row. -/
theorem get_solo_club_id_db (u : User) (db : DB) :
    (get_solo_club_id u db).2.2.matchesTable = db.matchesTable ∧
    ((get_solo_club_id u db).2.2.clubs = db.clubs ∨
      ∃ c, (get_solo_club_id u db).2.2.clubs = db.clubs ++ [c]) := by
  obtain ⟨i, nm, pl, sa, cu, su, cl, act, fl, te, cps, cpe⟩ := u
  cases cl with
  | some cid => exact ⟨rfl, Or.inl rfl⟩
  | none =>
    cases hf : db.clubs.find? (fun c => c.id == i) with
    | some c =>
      exact ⟨by simp [get_solo_club_id, hf], Or.inl (by simp [get_solo_club_id, hf])⟩
    | none =>
      exact ⟨by simp [get_solo_club_id, hf],
        Or.inr ⟨{ id := i, name := "Coach — " ++ nm,
                  quota_matches := PLAN_QUOTAS PlanType.COACH },
          by simp [get_solo_club_id, hf]⟩⟩

/-- `_get_solo_club_id` reads only `club_id`, `id` and `name` of the user:
its returned club id and database agree across users agreeing there. -/
theorem get_solo_club_id_congr (u u' : User) (db : DB)
    (hid : u'.id = u.id) (hnm : u'.name = u.name) (hcl : u'.club_id = u.club_id) :
    (get_solo_club_id u' db).1 = (get_solo_club_id u db).1 ∧
    (get_solo_club_id u' db).2.2 = (get_solo_club_id u db).2.2 := by
  simp only [get_solo_club_id, hid, hnm, hcl]
  cases u.club_id with
  | some cid => exact ⟨rfl, rfl⟩
  | none =>
    cases db.clubs.find? (fun c => c.id == u.id) with
    | some c => exact ⟨rfl, rfl⟩
    | none => exact ⟨rfl, rfl⟩

/-- On the no-subscription branch the evaluator's decision is the trial
decision over the (possibly freshly initialized) trial end. -/
theorem check_trial_decision (u : User) (db : DB) (now : DateTime) (p : PlanType)
    (hsa : u.is_superadmin = false) (hp : u.plan = some p)
    (hs : u.stripe_subscription_id = none) :
    (check_and_consume_quota u db now).1
      = trialDecision u.trial_match_used (effectiveTrialEnd u now) now ∧
    (check_and_consume_quota u db now).2.2 = db ∧
    (check_and_consume_quota u db now).2.1.trial_ends_at
      = some (effectiveTrialEnd u now) := by
  cases hte : u.trial_ends_at with
  | none =>
    simp only [check_and_consume_quota, hsa, hp, hs, hte, effectiveTrialEnd,
      trialDecision]
    cases hf : u.trial_match_used <;>
      simp [hf] <;>
      cases hlt : DateTime.ltb (now.addDays TRIAL_DAY_LIMIT) now <;> simp [hlt]
  | some t =>
    simp only [check_and_consume_quota, hsa, hp, hs, hte, effectiveTrialEnd,
      trialDecision]
    cases hf : u.trial_match_used <;>
      simp [hf] <;>
      cases hlt : DateTime.ltb t now <;> simp [hlt]

/-- With a subscription id present the evaluator runs the paid branch: the
decision is the plan ceiling against the calendar-month count, the user is
only updated by the club resolution, and the database is the one the club
resolution leaves. -/
theorem check_paid_spec (u : User) (db : DB) (now : DateTime) (p : PlanType)
    (sid : String) (hsa : u.is_superadmin = false) (hp : u.plan = some p)
    (hs : u.stripe_subscription_id = some sid) :
    (check_and_consume_quota u db now).1
      = paidDecision p (paidCount u db now) (get_current_month_range now).2 ∧
    (check_and_consume_quota u db now).2.1 = (get_solo_club_id u db).2.1 ∧
    (check_and_consume_quota u db now).2.2 = (get_solo_club_id u db).2.2 := by
  cases p with
  | COACH =>
    by_cases hc : 4 ≤ countMatchesInWindow (get_solo_club_id u db).2.2
        (get_solo_club_id u db).1 (get_current_month_range now).1
        (get_current_month_range now).2 <;>
      simp [check_and_consume_quota, hsa, hp, hs, paidDecision, paidCount,
        PLAN_QUOTAS, planLabel, hc]
  | CLUB =>
    by_cases hc : 12 ≤ countMatchesInWindow (get_solo_club_id u db).2.2
        (get_solo_club_id u db).1 (get_current_month_range now).1
        (get_current_month_range now).2 <;>
      simp [check_and_consume_quota, hsa, hp, hs, paidDecision, paidCount,
        PLAN_QUOTAS, planLabel, hc]

/-- The user returned by `check_and_consume_quota` differs from the input
at most in `club_id`, `trial_match_used` and `trial_ends_at`. -/
theorem check_user_shape (u : User) (db : DB) (now : DateTime) :
    ∃ cl tm te, (check_and_consume_quota u db now).2.1
      = { u with club_id := cl, trial_match_used := tm, trial_ends_at := te } := by
  obtain ⟨i, nm, pl, sa, cu, su, cl, act, fl, te0, cps, cpe⟩ := u
  cases sa with
  | true => exact ⟨cl, fl, te0, by simp [check_and_consume_quota]⟩
  | false =>
    cases pl with
    | none => exact ⟨cl, fl, te0, by simp [check_and_consume_quota]⟩
    | some p =>
      cases su with
      | none =>
        cases te0 with
        | none =>
          cases fl with
          | true =>
            exact ⟨cl, true, some (now.addDays TRIAL_DAY_LIMIT),
              by simp [check_and_consume_quota]⟩
          | false =>
            cases hlt : DateTime.ltb (now.addDays TRIAL_DAY_LIMIT) now with
            | true =>
              exact ⟨cl, false, some (now.addDays TRIAL_DAY_LIMIT),
                by simp [check_and_consume_quota, hlt]⟩
            | false =>
              exact ⟨cl, true, some (now.addDays TRIAL_DAY_LIMIT),
                by simp [check_and_consume_quota, hlt]⟩
        | some t =>
          cases fl with
          | true => exact ⟨cl, true, some t, by simp [check_and_consume_quota]⟩
          | false =>
            cases hlt : DateTime.ltb t now with
            | true =>
              exact ⟨cl, false, some t, by simp [check_and_consume_quota, hlt]⟩
            | false =>
              exact ⟨cl, true, some t, by simp [check_and_consume_quota, hlt]⟩
      | some sid =>
        refine ⟨some (get_solo_club_id
          ⟨i, nm, some p, false, cu, some sid, cl, act, fl, te0, cps, cpe⟩ db).1,
          fl, te0, ?_⟩
        rw [(check_paid_spec _ db now p sid rfl rfl rfl).2.1, get_solo_club_id_user]

/-- The quota check never clears the trial flag. -/
theorem check_flag_stays (u : User) (db : DB) (now : DateTime)
    (h : u.trial_match_used = true) :
    (check_and_consume_quota u db now).2.1.trial_match_used = true := by
  cases hsa : u.is_superadmin with
  | true => simp [check_and_consume_quota, hsa, h]
  | false =>
    cases hp : u.plan with
    | none => simp [check_and_consume_quota, hsa, hp, h]
    | some p =>
      cases hs : u.stripe_subscription_id with
      | none => simp [check_and_consume_quota, hsa, hp, hs, h]
      | some sid =>
        rw [(check_paid_spec u db now p sid hsa hp hs).2.1, get_solo_club_id_user]
        simpa using h

/-- `create_match` never clears the trial flag. -/
theorem create_match_flag_stays (u : User) (db : DB) (now : DateTime)
    (mid : String) (h : u.trial_match_used = true) :
    (create_match u db now mid).2.1.trial_match_used = true := by
  have hq := check_flag_stays u db now h
  unfold create_match
  cases hr : check_and_consume_quota u db now with
  | mk q rest =>
    cases rest with
    | mk u1 db1 =>
      cases q with
      | denied e => exact h
      | allowed =>
        rw [hr] at hq
        simpa [get_solo_club_id_user] using hq

/-- `delete_match` never touches the trial flag. -/
theorem delete_match_flag (u : User) (db : DB) (mid : String) :
    (delete_match u db mid).2.1.trial_match_used = u.trial_match_used := by
  simp only [delete_match]
  cases hf : (get_solo_club_id u db).2.2.matchesTable.find?
      (fun m => m.id == mid && m.club_id == (get_solo_club_id u db).1) with
  | none => simp [hf]
  | some m =>
    by_cases hst : m.status = MatchStatus.PROCESSING <;>
      simp [hf, hst, get_solo_club_id_user]

/-- `updateFirst` over a one-element table. -/
theorem updateFirst_headD (p : User → Bool) (f : User → User) (u : User) :
    (updateFirst p f [u]).headD u = if p u then f u else u := by
  by_cases hu : p u <;> simp [updateFirst, hu]

/-- No webhook handler touches `trial_match_used`. -/
theorem applyEventToUser_flag (u : User) (ev : StripeEvent) :
    (applyEventToUser u ev).trial_match_used = u.trial_match_used := by
  cases ev with
  | checkoutSessionCompleted uid pm sub cust te =>
    rw [applyEventToUser, applyStripeEvent, updateFirst_headD]
    by_cases hu : u.id == uid <;> simp [hu]
    cases sub <;> cases te <;> simp [applyCheckoutCompleted]
  | trialWillEnd cust =>
    rw [applyEventToUser, applyStripeEvent, updateFirst_headD]
    by_cases hu : u.stripe_customer_id == some cust <;> simp [hu]
  | invoicePaymentSucceeded cust reason =>
    rw [applyEventToUser, applyStripeEvent]
    by_cases hr : (reason == "subscription_cycle" || reason == "subscription_create") = true
    · rw [if_pos hr, updateFirst_headD]
      by_cases hu : u.stripe_customer_id == some cust <;> simp [hu]
    · rw [if_neg hr]
      rfl
  | invoicePaymentFailed cust =>
    rw [applyEventToUser, applyStripeEvent, updateFirst_headD]
    by_cases hu : u.stripe_customer_id == some cust <;> simp [hu]
  | subscriptionDeleted cust =>
    rw [applyEventToUser, applyStripeEvent, updateFirst_headD]
    by_cases hu : u.stripe_customer_id == some cust <;> simp [hu]
  | subscriptionUpdated cust st pm =>
    rw [applyEventToUser, applyStripeEvent, updateFirst_headD]
    by_cases hu : u.stripe_customer_id == some cust
    · simp only [hu, if_true]
      split
      · cases planFromString pm <;> rfl
      · rfl
    · simp [hu]

/-- No single operation clears the trial flag. -/
theorem applyOp_flag_stays (s : Sys) (op : Op)
    (h : s.user.trial_match_used = true) :
    (applyOp s op).user.trial_match_used = true := by
  cases op with
  | quotaCheck now =>
    rw [applyOp]
    cases hr : check_and_consume_quota s.user s.db now with
    | mk q rest =>
      cases rest with
      | mk u1 db1 =>
        cases q with
        | allowed =>
          have hq := check_flag_stays s.user s.db now h
          rw [hr] at hq
          exact hq
        | denied e => exact h
  | createMatchOp now mid => exact create_match_flag_stays s.user s.db now mid h
  | deleteMatchOp mid =>
    rw [applyOp]
    simpa [delete_match_flag] using h
  | billingEvent ev =>
    rw [applyOp]
    simpa [applyEventToUser_flag] using h

/-- No operation sequence clears the trial flag. -/
theorem applyOps_flag_stays (s : Sys) (ops : List Op)
    (h : s.user.trial_match_used = true) :
    (applyOps s ops).user.trial_match_used = true := by
  induction ops generalizing s with
  | nil => exact h
  | cons op rest ih => exact ih (applyOp s op) (applyOp_flag_stays s op h)

/-- The database returned by `check_and_consume_quota` has the same
matches table and at most one appended club row. -/
theorem check_db_shape (u : User) (db : DB) (now : DateTime) :
    (check_and_consume_quota u db now).2.2.matchesTable = db.matchesTable ∧
    ((check_and_consume_quota u db now).2.2.clubs = db.clubs ∨
      ∃ c, (check_and_consume_quota u db now).2.2.clubs = db.clubs ++ [c]) := by
  cases hsa : u.is_superadmin with
  | true => simp [check_and_consume_quota, hsa]
  | false =>
    cases hp : u.plan with
    | none => simp [check_and_consume_quota, hsa, hp]
    | some p =>
      cases hs : u.stripe_subscription_id with
      | none =>
        rw [(check_trial_decision u db now p hsa hp hs).2.1]
        exact ⟨rfl, Or.inl rfl⟩
      | some sid =>
        rw [(check_paid_spec u db now p sid hsa hp hs).2.2]
        exact get_solo_club_id_db u db

/-- A trial consumption running alone against a clear flag sets the flag
and allows. -/
theorem runCallAtomic_false : runCallAtomic false = (true, true) := rfl

/-- A trial consumption running alone against a set flag denies. -/
theorem runCallAtomic_true : runCallAtomic true = (true, false) := rfl

/-- Once the flag is set, every further uninterleaved call is denied. -/
theorem runSequential_true (n : Nat) :
    runSequential true n = (true, List.replicate n false) := by
  induction n with
  | zero => rfl
  | succ n ih => simp [runSequential, runCallAtomic_true, ih, List.replicate_succ]

/-- The checkout handler does not change the user's id. -/
theorem applyCheckoutCompleted_id (pm : String) (sub cust : Option String)
    (te : Option DateTime) (u : User) :
    (applyCheckoutCompleted pm sub cust te u).id = u.id := by
  cases sub <;> cases te <;> cases cust <;> simp [applyCheckoutCompleted]

/-- The checkout handler's per-user update is idempotent. -/
theorem applyCheckoutCompleted_idem (pm : String) (sub cust : Option String)
    (te : Option DateTime) (u : User) :
    applyCheckoutCompleted pm sub cust te (applyCheckoutCompleted pm sub cust te u)
      = applyCheckoutCompleted pm sub cust te u := by
  cases sub <;> cases te <;> cases cust <;> simp [applyCheckoutCompleted]

/-- `updateFirst` is idempotent whenever the update preserves the
predicate and is itself idempotent. -/
theorem updateFirst_idem (p : User → Bool) (f : User → User)
    (hpf : ∀ u, p u = true → p (f u) = true)
    (hff : ∀ u, p u = true → f (f u) = f u) (l : List User) :
    updateFirst p f (updateFirst p f l) = updateFirst p f l := by
  induction l with
  | nil => rfl
  | cons u us ih =>
    by_cases hu : p u = true
    · simp [updateFirst, hu, hpf u hu, hff u hu]
    · simp [updateFirst, hu, ih]

/-!  Claim theorems. -/

/-- C1, counterexample.  The claim: a subject with `subscription_id`
present, `trial_ends_at` present and `now < trial_ends_at` takes the
trial-with-card branch before any paid counting — with
`trial_match_used = true` it must be denied `TRIAL_EXHAUSTED`.  On the
code, this subject (subscription `sub_1`, trial end 2026-01-20, evaluation
at 2026-01-10, flag already consumed) is evaluated on the paid branch and
allowed. -/
theorem C1_counterexample :
    DateTime.ltb (dt 2026 1 10) (dt 2026 1 20) = true ∧
    uC1.stripe_subscription_id = some "sub_1" ∧
    uC1.trial_ends_at = some (dt 2026 1 20) ∧
    uC1.trial_match_used = true ∧
    (check_and_consume_quota uC1 dbC1 (dt 2026 1 10)).1 = QuotaCheck.allowed := by
  decide

/-- C1, amended.  With a subscription id present the evaluation never
takes the trial branch, whatever the trial fields say: it can deny neither
`TRIAL_EXHAUSTED` nor `TRIAL_EXPIRED`, it returns `trial_match_used` and
`trial_ends_at` unchanged, and its decision is the plan-keyed paid ceiling
against the calendar-month usage count. -/
theorem C1_subscription_skips_trial (u : User) (db : DB) (now : DateTime)
    (p : PlanType) (sid : String) (hsa : u.is_superadmin = false)
    (hp : u.plan = some p) (hs : u.stripe_subscription_id = some sid) :
    (check_and_consume_quota u db now).2.1.trial_match_used
      = u.trial_match_used ∧
    (check_and_consume_quota u db now).2.1.trial_ends_at = u.trial_ends_at ∧
    (check_and_consume_quota u db now).1
      ≠ QuotaCheck.denied QuotaError.TRIAL_EXHAUSTED ∧
    (check_and_consume_quota u db now).1
      ≠ QuotaCheck.denied QuotaError.TRIAL_EXPIRED ∧
    ((check_and_consume_quota u db now).1 = QuotaCheck.allowed ↔
      paidCount u db now < PLAN_QUOTAS p) := by
  obtain ⟨h1, h2, h3⟩ := check_paid_spec u db now p sid hsa hp hs
  refine ⟨?_, ?_, ?_, ?_, ?_⟩
  · rw [h2, get_solo_club_id_user]
  · rw [h2, get_solo_club_id_user]
  · rw [h1]; unfold paidDecision; split <;> simp
  · rw [h1]; unfold paidDecision; split <;> simp
  · rw [h1]; unfold paidDecision
    split
    · rename_i hc
      constructor
      · intro hx; exact absurd hx (by simp)
      · intro hlt; exact absurd hlt (by omega)
    · rename_i hc
      constructor
      · intro _; omega
      · intro _; rfl

/-- C1, witness for the amended theorem at the counterexample subject. -/
theorem C1_subscription_skips_trial_witness :
    (check_and_consume_quota uC1 dbC1 (dt 2026 1 10)).2.1.trial_match_used
      = uC1.trial_match_used ∧
    (check_and_consume_quota uC1 dbC1 (dt 2026 1 10)).2.1.trial_ends_at
      = uC1.trial_ends_at ∧
    (check_and_consume_quota uC1 dbC1 (dt 2026 1 10)).1
      ≠ QuotaCheck.denied QuotaError.TRIAL_EXHAUSTED ∧
    (check_and_consume_quota uC1 dbC1 (dt 2026 1 10)).1
      ≠ QuotaCheck.denied QuotaError.TRIAL_EXPIRED ∧
    ((check_and_consume_quota uC1 dbC1 (dt 2026 1 10)).1 = QuotaCheck.allowed
      ↔ paidCount uC1 dbC1 (dt 2026 1 10) < PLAN_QUOTAS PlanType.COACH) :=
  C1_subscription_skips_trial uC1 dbC1 (dt 2026 1 10) PlanType.COACH "sub_1"
    rfl rfl rfl

/-- C2, counterexample.  The claim: with both `current_period_start` and
`current_period_end` present the usage window is
`[current_period_start, current_period_end)`.  On the code, a subject with
both fields present (window 2026-01-20 .. 2026-02-20) and four matches
created 2026-01-05 — all outside that window — is denied `QUOTA_EXCEEDED`
with `used = 4` and `resets_at` the calendar-month end 2026-02-01: the
count was taken over the calendar month, not the billing period. -/
theorem C2_counterexample :
    uC2.current_period_start = some (dt 2026 1 20) ∧
    uC2.current_period_end = some (dt 2026 2 20) ∧
    countMatchesInWindow dbC2 "club-1" (dt 2026 1 20) (dt 2026 2 20) = 0 ∧
    (check_and_consume_quota uC2 dbC2 (dt 2026 1 25)).1
      = QuotaCheck.denied
          (QuotaError.QUOTA_EXCEEDED "COACH" 4 4 (dt 2026 2 1)) := by
  decide

/-- C2, amended.  The usage-counting window is always the calendar month
of the evaluation instant: the decision is invariant under any change of
`current_period_start` / `current_period_end`, and every `QUOTA_EXCEEDED`
denial reports the calendar-month end as `resets_at` and the
calendar-month count as `used`. -/
theorem C2_window_always_calendar_month :
    (∀ (u : User) (db : DB) (now : DateTime) (v w : Option DateTime),
      (check_and_consume_quota
          { u with current_period_start := v, current_period_end := w }
          db now).1
        = (check_and_consume_quota u db now).1) ∧
    (∀ (u : User) (db : DB) (now : DateTime) (lbl : String) (q used : Nat)
        (ra : DateTime),
      (check_and_consume_quota u db now).1
          = QuotaCheck.denied (QuotaError.QUOTA_EXCEEDED lbl q used ra) →
      ra = (get_current_month_range now).2 ∧ used = paidCount u db now) := by
  constructor
  · intro u db now v w
    obtain ⟨i, nm, pl, sa, cu, su, cl, act, fl, te0, cps, cpe⟩ := u
    cases sa with
    | true => simp [check_and_consume_quota]
    | false =>
      cases pl with
      | none => simp [check_and_consume_quota]
      | some p =>
        cases su with
        | none =>
          have ht1 := check_trial_decision
            ⟨i, nm, some p, false, cu, none, cl, act, fl, te0, v, w⟩
            db now p rfl rfl rfl
          have ht2 := check_trial_decision
            ⟨i, nm, some p, false, cu, none, cl, act, fl, te0, cps, cpe⟩
            db now p rfl rfl rfl
          rw [ht1.1, ht2.1]
          rfl
        | some sid =>
          have hq1 := check_paid_spec
            ⟨i, nm, some p, false, cu, some sid, cl, act, fl, te0, v, w⟩
            db now p sid rfl rfl rfl
          have hq2 := check_paid_spec
            ⟨i, nm, some p, false, cu, some sid, cl, act, fl, te0, cps, cpe⟩
            db now p sid rfl rfl rfl
          rw [hq1.1, hq2.1]
          obtain ⟨hc1, hc2⟩ := get_solo_club_id_congr
            ⟨i, nm, some p, false, cu, some sid, cl, act, fl, te0, cps, cpe⟩
            ⟨i, nm, some p, false, cu, some sid, cl, act, fl, te0, v, w⟩
            db rfl rfl rfl
          unfold paidCount
          rw [hc1, hc2]
  · intro u db now lbl q used ra h
    cases hsa : u.is_superadmin with
    | true => simp [check_and_consume_quota, hsa] at h
    | false =>
      cases hp : u.plan with
      | none => simp [check_and_consume_quota, hsa, hp] at h
      | some p =>
        cases hs : u.stripe_subscription_id with
        | none =>
          rw [(check_trial_decision u db now p hsa hp hs).1] at h
          unfold trialDecision at h
          split at h
          · simp at h
          · split at h
            · simp at h
            · simp at h
        | some sid =>
          rw [(check_paid_spec u db now p sid hsa hp hs).1] at h
          unfold paidDecision at h
          split at h
          · simp only [QuotaCheck.denied.injEq,
              QuotaError.QUOTA_EXCEEDED.injEq] at h
            exact ⟨h.2.2.2.symm, h.2.2.1.symm⟩
          · simp at h

/-- C2, witness for the amended theorem at the counterexample subject. -/
theorem C2_window_always_calendar_month_witness :
    (check_and_consume_quota
        { uC2 with
          current_period_start := some (dt 2026 3 1),
          current_period_end := some (dt 2026 4 1) } dbC2 (dt 2026 1 25)).1
      = (check_and_consume_quota uC2 dbC2 (dt 2026 1 25)).1 ∧
    (dt 2026 2 1 = (get_current_month_range (dt 2026 1 25)).2 ∧
      4 = paidCount uC2 dbC2 (dt 2026 1 25)) :=
  ⟨C2_window_always_calendar_month.1 uC2 dbC2 (dt 2026 1 25)
      (some (dt 2026 3 1)) (some (dt 2026 4 1)),
   C2_window_always_calendar_month.2 uC2 dbC2 (dt 2026 1 25) "COACH" 4 4
      (dt 2026 2 1) (by decide)⟩

/-- C3, counterexample.  The claim: with `trial_ends_at` set, the paid
count only includes records created from
`max(window.start, trial_ends_at)` on — a record created during the trial
never counts.  On the code, a subject whose trial ended 2026-01-10 with
one record created 2026-01-05 (during the trial) and three afterwards is
denied `QUOTA_EXCEEDED` with `used = 4`: the trial-window record was
counted, although only 3 records lie in `[2026-01-10, 2026-02-01)`. -/
theorem C3_counterexample :
    uC3.trial_ends_at = some (dt 2026 1 10) ∧
    countMatchesInWindow dbC3 "club-1" (dt 2026 1 10) (dt 2026 2 1) = 3 ∧
    (check_and_consume_quota uC3 dbC3 (dt 2026 1 15)).1
      = QuotaCheck.denied
          (QuotaError.QUOTA_EXCEEDED "COACH" 4 4 (dt 2026 2 1)) := by
  decide

/-- C3, amended.  No trial cutoff is applied on the paid branch: the
decision is invariant in `trial_ends_at`, and the counter counts every
in-window record of the tenant — prepending one record inside the window
(wherever it lies relative to any trial end) raises the count by one. -/
theorem C3_no_trial_cutoff (u : User) (db : DB) (now : DateTime)
    (p : PlanType) (sid : String) (hsa : u.is_superadmin = false)
    (hp : u.plan = some p) (hs : u.stripe_subscription_id = some sid) :
    (∀ t1 t2 : Option DateTime,
      (check_and_consume_quota { u with trial_ends_at := t1 } db now).1
        = (check_and_consume_quota { u with trial_ends_at := t2 } db now).1) ∧
    (∀ (m : Match) (cid : String) (s e : DateTime),
      m.club_id = cid → DateTime.leb s m.created_at = true →
      DateTime.ltb m.created_at e = true →
      countMatchesInWindow { db with matchesTable := m :: db.matchesTable }
          cid s e
        = countMatchesInWindow db cid s e + 1) := by
  constructor
  · obtain ⟨i, nm, pl, sa, cu, su, cl, act, fl, te0, cps, cpe⟩ := u
    cases hp
    cases hs
    cases hsa
    intro t1 t2
    have key : ∀ t : Option DateTime,
        (check_and_consume_quota
          ⟨i, nm, some p, false, cu, some sid, cl, act, fl, t, cps, cpe⟩
          db now).1
          = paidDecision p
              (paidCount
                ⟨i, nm, some p, false, cu, some sid, cl, act, fl, te0, cps, cpe⟩
                db now)
              (get_current_month_range now).2 := by
      intro t
      rw [(check_paid_spec
        ⟨i, nm, some p, false, cu, some sid, cl, act, fl, t, cps, cpe⟩
        db now p sid rfl rfl rfl).1]
      obtain ⟨hc1, hc2⟩ := get_solo_club_id_congr
        ⟨i, nm, some p, false, cu, some sid, cl, act, fl, te0, cps, cpe⟩
        ⟨i, nm, some p, false, cu, some sid, cl, act, fl, t, cps, cpe⟩
        db rfl rfl rfl
      unfold paidCount
      rw [hc1, hc2]
    rw [key t1, key t2]
  · intro m cid s e hc hle hlt
    simp [countMatchesInWindow, List.filter_cons, hc, hle, hlt]

/-- C3, witness for the amended theorem at the counterexample subject. -/
theorem C3_no_trial_cutoff_witness :
    ((check_and_consume_quota { uC3 with trial_ends_at := some (dt 2026 1 10) }
        dbC3 (dt 2026 1 15)).1
      = (check_and_consume_quota { uC3 with trial_ends_at := none }
          dbC3 (dt 2026 1 15)).1) ∧
    countMatchesInWindow
        { dbC3 with matchesTable := matchAt "m0" (dt 2026 1 6) :: dbC3.matchesTable }
        "club-1" (dt 2026 1 1) (dt 2026 2 1)
      = countMatchesInWindow dbC3 "club-1" (dt 2026 1 1) (dt 2026 2 1) + 1 :=
  ⟨(C3_no_trial_cutoff uC3 dbC3 (dt 2026 1 15) PlanType.COACH "sub_1"
      rfl rfl rfl).1 (some (dt 2026 1 10)) none,
   (C3_no_trial_cutoff uC3 dbC3 (dt 2026 1 15) PlanType.COACH "sub_1"
      rfl rfl rfl).2 (matchAt "m0" (dt 2026 1 6)) "club-1"
      (dt 2026 1 1) (dt 2026 2 1) rfl (by decide) (by decide)⟩

/-- C4, counterexample.  The claim: among N concurrent `tryConsume` calls
for a subject with a clear flag, exactly one returns Allow, because the
flag is consumed by a compare-and-set.  The code consumes the flag by
read-then-write, and in the interleaving where both of two concurrent
calls read `trial_match_used = false` before either writes, both calls
return Allow. -/
theorem C4_counterexample :
    ((runSchedule (false, [freshCall, freshCall]) [0, 1, 0, 1]).2.map
        TrialCall.outcome) = [some true, some true] ∧
    (runSchedule (false, [freshCall, freshCall]) [0, 1, 0, 1]).1 = true := by
  decide

/-- C4, amended.  The flag is consumed by read-then-write, not
compare-and-set.  When calls do not interleave, the one-shot behavior
holds: of `n + 1` calls starting from a clear flag the first allows and
the rest deny, with the flag durably true afterwards; and on the trial
branch inside the window the evaluator allows exactly when an atomic model
call from the subject's flag allows.  Under interleaving the exactly-one
guarantee fails (see the counterexample). -/
theorem C4_read_then_write (n : Nat) (u : User) (db : DB) (now : DateTime)
    (p : PlanType) (te : DateTime) (hsa : u.is_superadmin = false)
    (hp : u.plan = some p) (hs : u.stripe_subscription_id = none)
    (hte : u.trial_ends_at = some te) (hw : DateTime.ltb te now = false) :
    (runSequential false (n + 1)).2 = true :: List.replicate n false ∧
    (runSequential false (n + 1)).1 = true ∧
    ((check_and_consume_quota u db now).1 = QuotaCheck.allowed ↔
      (runCallAtomic u.trial_match_used).2 = true) := by
  refine ⟨?_, ?_, ?_⟩
  · simp [runSequential, runCallAtomic_false, runSequential_true]
  · simp [runSequential, runCallAtomic_false, runSequential_true]
  · rw [(check_trial_decision u db now p hsa hp hs).1]
    unfold trialDecision effectiveTrialEnd
    rw [hte]
    cases hf : u.trial_match_used <;>
      simp [hf, hw, runCallAtomic, stepCall, freshCall]

/-- C4, witness for the amended theorem: three sequential calls, and the
link with the evaluator on a fresh in-window subject. -/
theorem C4_read_then_write_witness :
    (runSequential false 3).2 = true :: List.replicate 2 false ∧
    (runSequential false 3).1 = true ∧
    ((check_and_consume_quota uC9 dbC9 (dt 2026 1 9)).1 = QuotaCheck.allowed ↔
      (runCallAtomic uC9.trial_match_used).2 = true) :=
  C4_read_then_write 2 uC9 dbC9 (dt 2026 1 9) PlanType.COACH (dt 2026 1 10)
    rfl rfl rfl rfl (by decide)

/-- C5, confirmed.  Across any sequence of operations (quota checks, match
creations, match deletions, billing-event applications) the trial flag
never returns to false once true; and once true, the trial branch of the
evaluator always denies `TRIAL_EXHAUSTED`. -/
theorem C5_trial_flag_one_shot :
    (∀ (s : Sys) (ops : List Op), s.user.trial_match_used = true →
      (applyOps s ops).user.trial_match_used = true) ∧
    (∀ (u : User) (db : DB) (now : DateTime) (p : PlanType),
      u.is_superadmin = false → u.plan = some p →
      u.stripe_subscription_id = none → u.trial_match_used = true →
      (check_and_consume_quota u db now).1
        = QuotaCheck.denied QuotaError.TRIAL_EXHAUSTED) := by
  constructor
  · exact applyOps_flag_stays
  · intro u db now p hsa hp hs hf
    rw [(check_trial_decision u db now p hsa hp hs).1]
    simp [trialDecision, hf]

/-- C5, witness: a subject with the flag consumed keeps it consumed across
a sample operation sequence, and a trial-branch evaluation denies
`TRIAL_EXHAUSTED`. -/
theorem C5_trial_flag_one_shot_witness :
    (applyOps { user := uC5, db := dbC5 } opsC5).user.trial_match_used
      = true ∧
    (check_and_consume_quota uC5 dbC5 (dt 2026 1 12)).1
      = QuotaCheck.denied QuotaError.TRIAL_EXHAUSTED :=
  ⟨C5_trial_flag_one_shot.1 { user := uC5, db := dbC5 } opsC5 rfl,
   C5_trial_flag_one_shot.2 uC5 dbC5 (dt 2026 1 12) PlanType.COACH
      rfl rfl rfl rfl⟩

/-- C6, counterexample.  The claim: `checkout.session.completed` writes
`trial_ends_at` only when it is currently unset — after
`SubscriptionDeleted` then a new checkout the subject never has
`trial_ends_at` reset to a future date.  On the code, a subject whose
trial ended 2026-01-08, after a `customer.subscription.deleted` and a new
checkout event whose subscription carries `trial_end = 2026-03-01`, ends
with `trial_ends_at = 2026-03-01`: the handler overwrites the field
unconditionally. -/
theorem C6_counterexample :
    uC6.trial_ends_at = some (dt 2026 1 8) ∧
    DateTime.ltb (dt 2026 1 8) (dt 2026 3 1) = true ∧
    (applyEventToUser
        (applyEventToUser uC6 (StripeEvent.subscriptionDeleted "cus_1"))
        evC6).trial_ends_at
      = some (dt 2026 3 1) := by
  decide

/-- C6, amended.  The checkout handler sets plan, subscription id,
customer id and active flag; it writes `trial_ends_at` unconditionally
whenever the event's subscription carries a trial end — also when
`trial_ends_at` is already set — and leaves it unchanged when no trial end
is carried; re-applying the identical event leaves the users table
unchanged. -/
theorem C6_checkout_trial_overwrite :
    (∀ (u : User) (pm : String) (sub cust : Option String) (t : DateTime),
      sub.isSome = true →
      (applyCheckoutCompleted pm sub cust (some t) u).trial_ends_at
        = some t) ∧
    (∀ (u : User) (pm : String) (sub cust : Option String),
      (applyCheckoutCompleted pm sub cust none u).trial_ends_at
        = u.trial_ends_at) ∧
    (∀ (users : List User) (uid pm : String) (sub cust : Option String)
        (te : Option DateTime),
      applyStripeEvent
          (applyStripeEvent users
            (StripeEvent.checkoutSessionCompleted uid pm sub cust te))
          (StripeEvent.checkoutSessionCompleted uid pm sub cust te)
        = applyStripeEvent users
            (StripeEvent.checkoutSessionCompleted uid pm sub cust te)) := by
  refine ⟨?_, ?_, ?_⟩
  · intro u pm sub cust t hsub
    cases sub with
    | none => simp at hsub
    | some s => cases cust <;> simp [applyCheckoutCompleted]
  · intro u pm sub cust
    cases sub <;> cases cust <;> simp [applyCheckoutCompleted]
  · intro users uid pm sub cust te
    simp only [applyStripeEvent]
    exact updateFirst_idem _ _
      (fun u hu => by rw [applyCheckoutCompleted_id]; exact hu)
      (fun u _ => applyCheckoutCompleted_idem pm sub cust te u) users

/-- C6, witness for the amended theorem: the overwrite at the
counterexample subject, and idempotence on a one-row table. -/
theorem C6_checkout_trial_overwrite_witness :
    (applyCheckoutCompleted "COACH" (some "sub_2") (some "cus_1")
        (some (dt 2026 3 1)) uC6).trial_ends_at = some (dt 2026 3 1) ∧
    applyStripeEvent (applyStripeEvent [uC6] evC6) evC6
      = applyStripeEvent [uC6] evC6 :=
  ⟨C6_checkout_trial_overwrite.1 uC6 "COACH" (some "sub_2") (some "cus_1")
      (dt 2026 3 1) rfl,
   C6_checkout_trial_overwrite.2.2 [uC6] "user-1" "COACH" (some "sub_2")
      (some "cus_1") (some (dt 2026 3 1))⟩

/-- C7, counterexample.  The claim: every denial carries one of the four
tokens NO_ACTIVE_PLAN, TRIAL_EXHAUSTED, QUOTA_EXCEEDED, NO_SUBSCRIPTION,
and a subject matching no earlier rule is denied NO_SUBSCRIPTION.  On the
code, an unsubscribed subject with an unconsumed but lapsed trial is
denied `TRIAL_EXPIRED` — a fifth token, outside the claim's set, where the
claim requires NO_SUBSCRIPTION. -/
theorem C7_counterexample :
    (check_and_consume_quota uC7 dbC7 (dt 2026 1 15)).1
      = QuotaCheck.denied QuotaError.TRIAL_EXPIRED ∧
    ¬ (QuotaError.TRIAL_EXPIRED.token
        ∈ ["NO_ACTIVE_PLAN", "TRIAL_EXHAUSTED", "QUOTA_EXCEEDED",
           "NO_SUBSCRIPTION"]) := by
  decide

/-- C7, amended.  Every denial carries exactly one of the four stable
tokens NO_ACTIVE_PLAN, TRIAL_EXHAUSTED, TRIAL_EXPIRED, QUOTA_EXCEEDED
(`QUOTA_EXCEEDED` carrying plan/ceiling/used/reset metadata in its
payload); there is no NO_SUBSCRIPTION token, and an unsubscribed subject
with a lapsed, unconsumed trial window is denied `TRIAL_EXPIRED`. -/
theorem C7_deny_taxonomy :
    (∀ (u : User) (db : DB) (now : DateTime) (e : QuotaError),
      (check_and_consume_quota u db now).1 = QuotaCheck.denied e →
      e.token ∈ ["NO_ACTIVE_PLAN", "TRIAL_EXHAUSTED", "TRIAL_EXPIRED",
        "QUOTA_EXCEEDED"]) ∧
    (∀ (u : User) (db : DB) (now : DateTime) (p : PlanType) (te : DateTime),
      u.is_superadmin = false → u.plan = some p →
      u.stripe_subscription_id = none → u.trial_match_used = false →
      u.trial_ends_at = some te → DateTime.ltb te now = true →
      (check_and_consume_quota u db now).1
        = QuotaCheck.denied QuotaError.TRIAL_EXPIRED) := by
  constructor
  · intro u db now e _
    cases e <;> simp [QuotaError.token]
  · intro u db now p te hsa hp hs hf hte hlt
    rw [(check_trial_decision u db now p hsa hp hs).1]
    unfold trialDecision effectiveTrialEnd
    rw [hte]
    simp [hf, hlt]

/-- C7, witness at the counterexample subject. -/
theorem C7_deny_taxonomy_witness :
    QuotaError.TRIAL_EXPIRED.token
      ∈ ["NO_ACTIVE_PLAN", "TRIAL_EXHAUSTED", "TRIAL_EXPIRED",
         "QUOTA_EXCEEDED"] ∧
    (check_and_consume_quota uC7 dbC7 (dt 2026 1 15)).1
      = QuotaCheck.denied QuotaError.TRIAL_EXPIRED :=
  ⟨C7_deny_taxonomy.1 uC7 dbC7 (dt 2026 1 15) QuotaError.TRIAL_EXPIRED
      (by decide),
   C7_deny_taxonomy.2 uC7 dbC7 (dt 2026 1 15) PlanType.COACH (dt 2026 1 10)
      rfl rfl rfl rfl rfl (by decide)⟩

/-- C8, counterexample.  The claim: a quota check mutates nothing but
possibly `trial_match_used` — in particular it never initializes
`trial_ends_at` and never creates or attaches a tenant record.  On the
code, a trial-branch check on a subject with `trial_ends_at` unset writes
`trial_ends_at := now + 7 days`; and a paid-branch check on a subject with
no club lazily inserts a solo club row and attaches the user to it. -/
theorem C8_counterexample :
    baseUser.trial_ends_at = none ∧
    (check_and_consume_quota baseUser dbEmpty (dt 2026 1 10)).2.1.trial_ends_at
      = some (dt 2026 1 17) ∧
    uC8paid.club_id = none ∧
    (check_and_consume_quota uC8paid dbEmpty (dt 2026 1 10)).2.2.clubs
      = [{ id := "user-1", name := "Coach — Ada", quota_matches := 4 }] ∧
    (check_and_consume_quota uC8paid dbEmpty (dt 2026 1 10)).2.1.club_id
      = some "user-1" := by
  decide

/-- C8, amended.  A quota check mutates at most `trial_match_used`,
`trial_ends_at` (initializing it on the trial branch) and `club_id` on the
subject, and at most appends one club row to the store; every other user
field and the matches table are returned unchanged. -/
theorem C8_frame (u : User) (db : DB) (now : DateTime) :
    (check_and_consume_quota u db now).2.1.id = u.id ∧
    (check_and_consume_quota u db now).2.1.name = u.name ∧
    (check_and_consume_quota u db now).2.1.plan = u.plan ∧
    (check_and_consume_quota u db now).2.1.is_superadmin = u.is_superadmin ∧
    (check_and_consume_quota u db now).2.1.stripe_customer_id
      = u.stripe_customer_id ∧
    (check_and_consume_quota u db now).2.1.stripe_subscription_id
      = u.stripe_subscription_id ∧
    (check_and_consume_quota u db now).2.1.is_active = u.is_active ∧
    (check_and_consume_quota u db now).2.1.current_period_start
      = u.current_period_start ∧
    (check_and_consume_quota u db now).2.1.current_period_end
      = u.current_period_end ∧
    (check_and_consume_quota u db now).2.2.matchesTable = db.matchesTable ∧
    ((check_and_consume_quota u db now).2.2.clubs = db.clubs ∨
      ∃ c, (check_and_consume_quota u db now).2.2.clubs = db.clubs ++ [c]) := by
  obtain ⟨cl, tm, te, hU⟩ := check_user_shape u db now
  obtain ⟨hM, hC⟩ := check_db_shape u db now
  rw [hU]
  exact ⟨rfl, rfl, rfl, rfl, rfl, rfl, rfl, rfl, rfl, hM, hC⟩

/-- C9, counterexample.  The claim: the admitting condition is strictly
`now < trial_ends_at`, so an evaluation at `now == trial_ends_at` is
expired and does not admit a trial match.  On the code, an unconsumed
trial evaluated exactly at `trial_ends_at` (2026-01-10) is admitted and
consumes the trial flag: the code denies only when `now > trial_ends_at`. -/
theorem C9_counterexample :
    uC9.trial_ends_at = some (dt 2026 1 10) ∧
    (check_and_consume_quota uC9 dbC9 (dt 2026 1 10)).1
      = QuotaCheck.allowed ∧
    (check_and_consume_quota uC9 dbC9 (dt 2026 1 10)).2.1.trial_match_used
      = true := by
  decide

/-- C9, amended.  On the trial branch with an unconsumed flag and a stored
trial end, the admitting condition is `now ≤ trial_ends_at`: the instant
`now == trial_ends_at` still admits; only `now > trial_ends_at` is
expired. -/
theorem C9_trial_boundary (u : User) (db : DB) (now te : DateTime)
    (p : PlanType) (hsa : u.is_superadmin = false) (hp : u.plan = some p)
    (hs : u.stripe_subscription_id = none) (hf : u.trial_match_used = false)
    (hte : u.trial_ends_at = some te) :
    ((check_and_consume_quota u db now).1 = QuotaCheck.allowed ↔
      DateTime.leb now te = true) := by
  rw [(check_trial_decision u db now p hsa hp hs).1]
  unfold trialDecision effectiveTrialEnd
  rw [hte]
  cases hlt : DateTime.ltb te now <;>
    simp [hf, hlt, DateTime.leb]

/-- C9, witness at the boundary instant `now == trial_ends_at`. -/
theorem C9_trial_boundary_witness :
    ((check_and_consume_quota uC9 dbC9 (dt 2026 1 10)).1
        = QuotaCheck.allowed ↔
      DateTime.leb (dt 2026 1 10) (dt 2026 1 10) = true) :=
  C9_trial_boundary uC9 dbC9 (dt 2026 1 10) (dt 2026 1 10) PlanType.COACH
    rfl rfl rfl rfl rfl

/-- C10, code bug.  The claim (and `delete_match`'s own docstring,
`matches.py` line 312) says deleting a match does not refund quota.  But
usage is recomputed by counting live rows and `delete_match` hard-deletes
the row: at the ceiling (4 in-window matches, check denied with used = 4),
deleting one in-window match makes the next check allow — the deletion
refunded one unit. -/
theorem C10_delete_refunds_quota :
    (check_and_consume_quota uC10 dbC10 (dt 2026 1 15)).1
      = QuotaCheck.denied
          (QuotaError.QUOTA_EXCEEDED "COACH" 4 4 (dt 2026 2 1)) ∧
    (delete_match uC10 dbC10 "m1").1 = DeleteResult.deleted ∧
    (check_and_consume_quota uC10 (delete_match uC10 dbC10 "m1").2.2
        (dt 2026 1 15)).1 = QuotaCheck.allowed := by
  decide

end Insightball
